import Mathlib

/-!
Shallow embedding of the `env2` boundary layer of the ink! core
(`src/core/src/env2/env_access/shared_mut.rs`,
 `src/core/src/env2/env_access/mutable.rs`, `src/core/src/env2/api.rs`).

The protocol core is `EnvInstance`: a singleton holding one reusable scratch
buffer and two boolean flags (`has_interacted`, `has_returned_value`).  Every
boundary operation goes through it and, where the source asserts, checks the
flags before delegating to the host environment capability (the `Env` trait,
external to the sampled files).

Modelling choices:
- Byte sequences crossing the boundary are `List Nat`.  The external SCALE
  encode/decode capability is abstract; values that the source encodes are
  modelled as already-encoded byte lists, and decoding is a caller-supplied
  `Bytes → Option R` where a claim needs it.
- The external host capability is a `Host` record of response functions plus
  observation logs (outputs handed over, events, printed lines); host calls
  that stage data in the scratch buffer overwrite the buffer field.
- A fatal assertion failure (Rust `assert!`) is `none`; a successful
  operation is `some (result, instance, host)`.
-/

/-- Raw byte sequences crossing the guest/host boundary (SCALE-encoded data). -/
abbrev Bytes := List Nat

/-- The closed property taxonomy (`env2::property`): one tag per host-side
value, plus the raw input.  A dispatch key only, no runtime data. -/
inductive Property where
  | Caller
  | TransferredBalance
  | GasPrice
  | GasLeft
  | NowInMs
  | Address
  | Balance
  | RentAllowance
  | BlockNumber
  | MinimumBalance
  | Input
  deriving DecidableEq, Repr

/-- Modelled from the spec: the recoverable error taxonomy of `env2::Result`
(the `error.rs` of the crate is not among the sampled files).  The spec lists
storage-entry-absent, value-decode-failure, target-trapped, invalid-address,
insufficient-endowment, invalid-arguments, gas-exhausted and
invalid-code-reference as distinct explicit result values. -/
inductive EnvError where
  | keyNotFound
  | decodeError
  | calleeTrapped
  | invalidAccountId
  | insufficientEndowment
  | invalidArguments
  | gasExhausted
  | invalidCodeHash
  deriving DecidableEq, Repr

/-- `env2::call::CallParams`: a message-call descriptor (callee address, gas
limit, endowment, encoded selector+arguments payload).  The `ReturnType<R>`
phantom marker carries no value and is dropped in the embedding. -/
structure CallParams where
  callee : Bytes
  gas_limit : Nat
  transferred_value : Nat
  call_data : Bytes
  deriving DecidableEq, Repr

/-- `env2::call::CreateParams`: an instantiation descriptor (code hash, gas
limit, endowment, encoded constructor payload). -/
structure CreateParams where
  code_hash : Bytes
  gas_limit : Nat
  value : Nat
  create_data : Bytes
  deriving DecidableEq, Repr

/-- The external Environment Capability (the `Env` trait implementation of the
concrete host) together with its observable effects.  Response functions model
what the host answers; the log fields record what the guest hands over. -/
structure Host where
  /-- Raw bytes the host supplies for each property tag (incl. `Input`). -/
  property_bytes : Property → Bytes
  /-- Contract storage: key bytes to stored bytes. -/
  storage : Bytes → Option Bytes
  /-- Runtime storage: key bytes to stored bytes. -/
  runtime_storage : Bytes → Option Bytes
  /-- Host verdict for `invoke_contract` on given params. -/
  invoke_result : CallParams → Except EnvError Unit
  /-- Host verdict for `eval_contract`: error or raw returned bytes. -/
  eval_result : CallParams → Except EnvError Bytes
  /-- Host verdict for `create_contract`: error or account id bytes. -/
  create_result : CreateParams → Except EnvError Bytes
  /-- Host randomness, salted by the subject bytes. -/
  random_hash : Bytes → Bytes
  /-- Return payloads the guest has handed to `Env::output`, in order. -/
  outputs : List Bytes
  /-- Emitted event payloads, in order. -/
  events : List Bytes
  /-- Lines handed to `Env::println`, in order. -/
  printed : List String

/-- `EnvInstance` (`shared_mut.rs` lines 55-70): the scratch buffer and the two
protocol flags. -/
structure EnvInstance where
  buffer : Bytes
  has_interacted : Bool
  has_returned_value : Bool
  deriving DecidableEq, Repr

/-- The initial value of the `ENV_INSTANCE` singleton (`shared_mut.rs` lines
35-39): empty buffer, both flags false. -/
def ENV_INSTANCE : EnvInstance :=
  { buffer := [], has_interacted := false, has_returned_value := false }

/-- `EnvInstance::assert_not_yet_returned`: `assert!(!self.has_returned_value)`.
`none` models the fatal assertion failure. -/
def EnvInstance.assert_not_yet_returned (self : EnvInstance) : Option Unit :=
  if self.has_returned_value then none else some ()

/-- `EnvInstance::set_has_interacted`: latches `has_interacted` to true. -/
def EnvInstance.set_has_interacted (self : EnvInstance) : EnvInstance :=
  { self with has_interacted := true }

/-- Body generated by `impl_get_property_for!` for each of the ten property
getters (`caller`, `transferred_balance`, `gas_price`, `gas_left`, `now_in_ms`,
`address`, `balance`, `rent_allowance`, `block_number`, `minimum_balance`):
assert not yet returned, latch `has_interacted`, then fetch the property via
the capability using the scratch buffer. -/
def EnvInstance.get_property (self : EnvInstance) (host : Host) (prop : Property) :
    Option (Bytes × EnvInstance × Host) :=
  match self.assert_not_yet_returned with
  | none => none
  | some () =>
    let self := self.set_has_interacted
    let raw := host.property_bytes prop
    some (raw, { self with buffer := raw }, host)

/-- `EnvInstance::caller`. -/
def EnvInstance.caller (self : EnvInstance) (host : Host) :
    Option (Bytes × EnvInstance × Host) :=
  self.get_property host Property.Caller

/-- `EnvInstance::transferred_balance`. -/
def EnvInstance.transferred_balance (self : EnvInstance) (host : Host) :
    Option (Bytes × EnvInstance × Host) :=
  self.get_property host Property.TransferredBalance

/-- `EnvInstance::gas_price`. -/
def EnvInstance.gas_price (self : EnvInstance) (host : Host) :
    Option (Bytes × EnvInstance × Host) :=
  self.get_property host Property.GasPrice

/-- `EnvInstance::gas_left`. -/
def EnvInstance.gas_left (self : EnvInstance) (host : Host) :
    Option (Bytes × EnvInstance × Host) :=
  self.get_property host Property.GasLeft

/-- `EnvInstance::now_in_ms`. -/
def EnvInstance.now_in_ms (self : EnvInstance) (host : Host) :
    Option (Bytes × EnvInstance × Host) :=
  self.get_property host Property.NowInMs

/-- `EnvInstance::address`. -/
def EnvInstance.address (self : EnvInstance) (host : Host) :
    Option (Bytes × EnvInstance × Host) :=
  self.get_property host Property.Address

/-- `EnvInstance::balance`. -/
def EnvInstance.balance (self : EnvInstance) (host : Host) :
    Option (Bytes × EnvInstance × Host) :=
  self.get_property host Property.Balance

/-- `EnvInstance::rent_allowance`. -/
def EnvInstance.rent_allowance (self : EnvInstance) (host : Host) :
    Option (Bytes × EnvInstance × Host) :=
  self.get_property host Property.RentAllowance

/-- `EnvInstance::block_number`. -/
def EnvInstance.block_number (self : EnvInstance) (host : Host) :
    Option (Bytes × EnvInstance × Host) :=
  self.get_property host Property.BlockNumber

/-- `EnvInstance::minimum_balance`. -/
def EnvInstance.minimum_balance (self : EnvInstance) (host : Host) :
    Option (Bytes × EnvInstance × Host) :=
  self.get_property host Property.MinimumBalance

/-- `EnvInstance::set_rent_allowance`: assert not yet returned, latch
`has_interacted`, then `SetProperty::set_property(&mut self.buffer, &new_value)`
(the host records the new encoded rent allowance staged in the buffer). -/
def EnvInstance.set_rent_allowance (self : EnvInstance) (host : Host)
    (new_value : Bytes) : Option (Unit × EnvInstance × Host) :=
  match self.assert_not_yet_returned with
  | none => none
  | some () =>
    let self := self.set_has_interacted
    some ((), { self with buffer := new_value },
      { host with property_bytes := fun p =>
          if p = Property.RentAllowance then new_value else host.property_bytes p })

/-- `EnvInstance::set_contract_storage`: no assertion, no flag change;
delegates `Env::set_contract_storage(&mut self.buffer, key, value)` (the
encoded value is staged in the scratch buffer). -/
def EnvInstance.set_contract_storage (self : EnvInstance) (host : Host)
    (key value : Bytes) : Option (Unit × EnvInstance × Host) :=
  some ((), { self with buffer := value },
    { host with storage := fun k => if k = key then some value else host.storage k })

/-- Modelled from the spec: the host side of `get_storage` — the Environment
Capability interface is `get_storage(key) -> Option<bytes>` and the decode
capability is separate; `get_storage(key)` "fails with a not-found error if
the key is absent, and with a decode error if the bytes do not match the
requested type", both explicit result values.  The concrete `Env` trait
implementations are not among the sampled files. -/
def Env.get_contract_storage {R : Type} (host : Host) (dec : Bytes → Option R)
    (key : Bytes) : Except EnvError R :=
  match host.storage key with
  | none => Except.error EnvError.keyNotFound
  | some raw =>
    match dec raw with
    | none => Except.error EnvError.decodeError
    | some v => Except.ok v

/-- `EnvInstance::get_contract_storage`: no assertion, no flag change;
delegates `Env::get_contract_storage(&mut self.buffer, key)` (the raw stored
bytes are staged in the scratch buffer before decoding). -/
def EnvInstance.get_contract_storage {R : Type} (dec : Bytes → Option R)
    (self : EnvInstance) (host : Host) (key : Bytes) :
    Option (Except EnvError R × EnvInstance × Host) :=
  some (Env.get_contract_storage host dec key,
    { self with buffer := (host.storage key).getD [] }, host)

/-- `EnvInstance::clear_contract_storage`: no assertion, no flag change;
delegates `Env::clear_contract_storage(key)` (which does not take the
buffer). -/
def EnvInstance.clear_contract_storage (self : EnvInstance) (host : Host)
    (key : Bytes) : Option (Unit × EnvInstance × Host) :=
  some ((), self,
    { host with storage := fun k => if k = key then none else host.storage k })

/-- `EnvInstance::invoke_contract`: no assertion, no flag change; delegates
`Env::invoke_contract(&mut self.buffer, call_data)` (the encoded call is
staged in the scratch buffer). -/
def EnvInstance.invoke_contract (self : EnvInstance) (host : Host)
    (call_data : CallParams) : Option (Except EnvError Unit × EnvInstance × Host) :=
  some (host.invoke_result call_data,
    { self with buffer := call_data.call_data }, host)

/-- `EnvInstance::eval_contract`: no assertion, no flag change; delegates
`Env::eval_contract(&mut self.buffer, call_data)`, decoding the raw returned
bytes into the expected return type. -/
def EnvInstance.eval_contract {R : Type} (dec : Bytes → Option R)
    (self : EnvInstance) (host : Host) (call_data : CallParams) :
    Option (Except EnvError R × EnvInstance × Host) :=
  let res :=
    match host.eval_result call_data with
    | Except.error e => Except.error e
    | Except.ok raw =>
      match dec raw with
      | none => Except.error EnvError.decodeError
      | some v => Except.ok v
  some (res, { self with buffer := call_data.call_data }, host)

/-- `EnvInstance::create_contract`: no assertion, no flag change; delegates
`Env::create_contract(&mut self.buffer, params)`. -/
def EnvInstance.create_contract (self : EnvInstance) (host : Host)
    (params : CreateParams) : Option (Except EnvError Bytes × EnvInstance × Host) :=
  some (host.create_result params,
    { self with buffer := params.create_data }, host)

/-- `EnvInstance::input`: `assert!(!self.has_interacted)`, then
`assert_not_yet_returned`, then latch `has_interacted` and fetch the `Input`
property (4-byte selector followed by SCALE-encoded arguments). -/
def EnvInstance.input (self : EnvInstance) (host : Host) :
    Option (Bytes × EnvInstance × Host) :=
  if self.has_interacted then none
  else
    match self.assert_not_yet_returned with
    | none => none
    | some () =>
      let self := self.set_has_interacted
      let raw := host.property_bytes Property.Input
      some (raw, { self with buffer := raw }, host)

/-- `EnvInstance::output`: `assert_not_yet_returned`, latch `has_interacted`,
set `has_returned_value := true`, then hand the encoded payload to
`Env::output(&mut self.buffer, &return_value)` (logged by the host). -/
def EnvInstance.output (self : EnvInstance) (host : Host)
    (return_value : Bytes) : Option (Unit × EnvInstance × Host) :=
  match self.assert_not_yet_returned with
  | none => none
  | some () =>
    let self := self.set_has_interacted
    let self := { self with has_returned_value := true }
    some ((), { self with buffer := return_value },
      { host with outputs := host.outputs ++ [return_value] })

/-- `EnvInstance::random`: assert not yet returned, latch `has_interacted`,
then `Env::random(&mut self.buffer, subject)`. -/
def EnvInstance.random (self : EnvInstance) (host : Host) (subject : Bytes) :
    Option (Bytes × EnvInstance × Host) :=
  match self.assert_not_yet_returned with
  | none => none
  | some () =>
    let self := self.set_has_interacted
    let raw := host.random_hash subject
    some (raw, { self with buffer := raw }, host)

/-- `EnvInstance::println`: no assertion, no flag change, buffer untouched;
delegates `Env::println(content)` (which does not take the buffer). -/
def EnvInstance.println (self : EnvInstance) (host : Host) (content : String) :
    Option (Unit × EnvInstance × Host) :=
  some ((), self, { host with printed := host.printed ++ [content] })

/-- `EnvInstance::get_runtime_storage`: no assertion, no flag change;
delegates `T::get_runtime_storage(&mut self.buffer, key)`. -/
def EnvInstance.get_runtime_storage {R : Type} (dec : Bytes → Option R)
    (self : EnvInstance) (host : Host) (key : Bytes) :
    Option (Except EnvError R × EnvInstance × Host) :=
  let res :=
    match host.runtime_storage key with
    | none => Except.error EnvError.keyNotFound
    | some raw =>
      match dec raw with
      | none => Except.error EnvError.decodeError
      | some v => Except.ok v
  some (res, { self with buffer := (host.runtime_storage key).getD [] }, host)

/-- `EnvInstance::emit_event` (the `EmitEvent` impl for `EnvInstance`): no
assertion, no flag change; delegates `Env::emit_event(&mut self.buffer, event)`
with the encoded event payload. -/
def EnvInstance.emit_event (self : EnvInstance) (host : Host) (event : Bytes) :
    Option (Unit × EnvInstance × Host) :=
  some ((), { self with buffer := event },
    { host with events := host.events ++ [event] })

/-- `env_with` (`shared_mut.rs` lines 44-49): executes the closure on the
singleton environmental instance.  With the global state made explicit it is
plain application to the current instance/host pair. -/
def env_with {A : Type}
    (f : EnvInstance → Host → Option (A × EnvInstance × Host))
    (self : EnvInstance) (host : Host) : Option (A × EnvInstance × Host) :=
  f self host

/-- `EnvAccessMut<E>` (`mutable.rs` lines 46-49): its only field is the
`PhantomData<E>` marker, modelled as `Unit` — no runtime state. -/
structure EnvAccessMut where
  env : Unit
  deriving DecidableEq, Repr

/-- `Default for EnvAccessMut`: `Self { env: Default::default() }`. -/
def EnvAccessMut.default : EnvAccessMut :=
  { env := () }

/-- `AllocateUsing for EnvAccessMut`: `allocate_using(_alloc)` ignores the
allocator and yields `Self::default()`. -/
def EnvAccessMut.allocate_using {A : Type} (_alloc : A) : EnvAccessMut :=
  EnvAccessMut.default

/-- `Initialize for EnvAccessMut`: `initialize(&mut self, _args: ())` does
nothing, leaving the handle unchanged. -/
def EnvAccessMut.initialize (self : EnvAccessMut) (_args : Unit) : EnvAccessMut :=
  self

/-- Method form of the ten macro-generated property getters on `EnvAccessMut`
(`mutable.rs` `impl_get_property_for!`): `env_with(|instance| instance.$fn())`. -/
def EnvAccessMut.get_property (_self : EnvAccessMut) (st : EnvInstance)
    (host : Host) (prop : Property) : Option (Bytes × EnvInstance × Host) :=
  env_with (fun inst h => inst.get_property h prop) st host

/-- `EnvAccessMut::set_rent_allowance`. -/
def EnvAccessMut.set_rent_allowance (_self : EnvAccessMut) (st : EnvInstance)
    (host : Host) (new_value : Bytes) : Option (Unit × EnvInstance × Host) :=
  env_with (fun inst h => inst.set_rent_allowance h new_value) st host

/-- `EnvAccessMut::set_contract_storage`. -/
def EnvAccessMut.set_contract_storage (_self : EnvAccessMut) (st : EnvInstance)
    (host : Host) (key value : Bytes) : Option (Unit × EnvInstance × Host) :=
  env_with (fun inst h => inst.set_contract_storage h key value) st host

/-- `EnvAccessMut::get_contract_storage`. -/
def EnvAccessMut.get_contract_storage {R : Type} (dec : Bytes → Option R)
    (_self : EnvAccessMut) (st : EnvInstance) (host : Host) (key : Bytes) :
    Option (Except EnvError R × EnvInstance × Host) :=
  env_with (fun inst h => EnvInstance.get_contract_storage dec inst h key) st host

/-- `EnvAccessMut::clear_contract_storage`. -/
def EnvAccessMut.clear_contract_storage (_self : EnvAccessMut) (st : EnvInstance)
    (host : Host) (key : Bytes) : Option (Unit × EnvInstance × Host) :=
  env_with (fun inst h => inst.clear_contract_storage h key) st host

/-- `EnvAccessMut::invoke_contract`. -/
def EnvAccessMut.invoke_contract (_self : EnvAccessMut) (st : EnvInstance)
    (host : Host) (call_data : CallParams) :
    Option (Except EnvError Unit × EnvInstance × Host) :=
  env_with (fun inst h => inst.invoke_contract h call_data) st host

/-- `EnvAccessMut::eval_contract`. -/
def EnvAccessMut.eval_contract {R : Type} (dec : Bytes → Option R)
    (_self : EnvAccessMut) (st : EnvInstance) (host : Host)
    (call_data : CallParams) : Option (Except EnvError R × EnvInstance × Host) :=
  env_with (fun inst h => EnvInstance.eval_contract dec inst h call_data) st host

/-- `EnvAccessMut::create_contract`. -/
def EnvAccessMut.create_contract (_self : EnvAccessMut) (st : EnvInstance)
    (host : Host) (params : CreateParams) :
    Option (Except EnvError Bytes × EnvInstance × Host) :=
  env_with (fun inst h => inst.create_contract h params) st host

/-- `EnvAccessMut::input`. -/
def EnvAccessMut.input (_self : EnvAccessMut) (st : EnvInstance) (host : Host) :
    Option (Bytes × EnvInstance × Host) :=
  env_with (fun inst h => inst.input h) st host

/-- `EnvAccessMut::output`. -/
def EnvAccessMut.output (_self : EnvAccessMut) (st : EnvInstance) (host : Host)
    (return_value : Bytes) : Option (Unit × EnvInstance × Host) :=
  env_with (fun inst h => inst.output h return_value) st host

/-- `EnvAccessMut::random`. -/
def EnvAccessMut.random (_self : EnvAccessMut) (st : EnvInstance) (host : Host)
    (subject : Bytes) : Option (Bytes × EnvInstance × Host) :=
  env_with (fun inst h => inst.random h subject) st host

/-- `EnvAccessMut::println`. -/
def EnvAccessMut.println (_self : EnvAccessMut) (st : EnvInstance) (host : Host)
    (content : String) : Option (Unit × EnvInstance × Host) :=
  env_with (fun inst h => inst.println h content) st host

/-- `EnvAccessMut::get_runtime_storage`. -/
def EnvAccessMut.get_runtime_storage {R : Type} (dec : Bytes → Option R)
    (_self : EnvAccessMut) (st : EnvInstance) (host : Host) (key : Bytes) :
    Option (Except EnvError R × EnvInstance × Host) :=
  env_with (fun inst h => EnvInstance.get_runtime_storage dec inst h key) st host

/-- `EnvAccessMut::emit_event` (the `EmitEvent` impl for `EnvAccessMut`). -/
def EnvAccessMut.emit_event (_self : EnvAccessMut) (st : EnvInstance)
    (host : Host) (event : Bytes) : Option (Unit × EnvInstance × Host) :=
  env_with (fun inst h => inst.emit_event h event) st host

/-- Free-function form of the ten macro-generated property getters in
`api.rs`: `env_with(|instance| instance.$fn())`. -/
def api.get_property (st : EnvInstance) (host : Host) (prop : Property) :
    Option (Bytes × EnvInstance × Host) :=
  env_with (fun inst h => inst.get_property h prop) st host

/-- `api::set_rent_allowance`. -/
def api.set_rent_allowance (st : EnvInstance) (host : Host) (new_value : Bytes) :
    Option (Unit × EnvInstance × Host) :=
  env_with (fun inst h => inst.set_rent_allowance h new_value) st host

/-- `api::set_contract_storage`. -/
def api.set_contract_storage (st : EnvInstance) (host : Host) (key value : Bytes) :
    Option (Unit × EnvInstance × Host) :=
  env_with (fun inst h => inst.set_contract_storage h key value) st host

/-- `api::get_contract_storage`. -/
def api.get_contract_storage {R : Type} (dec : Bytes → Option R)
    (st : EnvInstance) (host : Host) (key : Bytes) :
    Option (Except EnvError R × EnvInstance × Host) :=
  env_with (fun inst h => EnvInstance.get_contract_storage dec inst h key) st host

/-- `api::clear_contract_storage`. -/
def api.clear_contract_storage (st : EnvInstance) (host : Host) (key : Bytes) :
    Option (Unit × EnvInstance × Host) :=
  env_with (fun inst h => inst.clear_contract_storage h key) st host

/-- `api::invoke_contract`. -/
def api.invoke_contract (st : EnvInstance) (host : Host) (call_data : CallParams) :
    Option (Except EnvError Unit × EnvInstance × Host) :=
  env_with (fun inst h => inst.invoke_contract h call_data) st host

/-- `api::eval_contract`. -/
def api.eval_contract {R : Type} (dec : Bytes → Option R) (st : EnvInstance)
    (host : Host) (call_data : CallParams) :
    Option (Except EnvError R × EnvInstance × Host) :=
  env_with (fun inst h => EnvInstance.eval_contract dec inst h call_data) st host

/-- `api::create_contract`. -/
def api.create_contract (st : EnvInstance) (host : Host) (params : CreateParams) :
    Option (Except EnvError Bytes × EnvInstance × Host) :=
  env_with (fun inst h => inst.create_contract h params) st host

/-- `api::input`. -/
def api.input (st : EnvInstance) (host : Host) :
    Option (Bytes × EnvInstance × Host) :=
  env_with (fun inst h => inst.input h) st host

/-- `api::output`. -/
def api.output (st : EnvInstance) (host : Host) (return_value : Bytes) :
    Option (Unit × EnvInstance × Host) :=
  env_with (fun inst h => inst.output h return_value) st host

/-- `api::random`. -/
def api.random (st : EnvInstance) (host : Host) (subject : Bytes) :
    Option (Bytes × EnvInstance × Host) :=
  env_with (fun inst h => inst.random h subject) st host

/-- `api::println`. -/
def api.println (st : EnvInstance) (host : Host) (content : String) :
    Option (Unit × EnvInstance × Host) :=
  env_with (fun inst h => inst.println h content) st host

/-- `api::get_runtime_storage`. -/
def api.get_runtime_storage {R : Type} (dec : Bytes → Option R)
    (st : EnvInstance) (host : Host) (key : Bytes) :
    Option (Except EnvError R × EnvInstance × Host) :=
  env_with (fun inst h => EnvInstance.get_runtime_storage dec inst h key) st host

/-- `api::emit_event`. -/
def api.emit_event (st : EnvInstance) (host : Host) (event : Bytes) :
    Option (Unit × EnvInstance × Host) :=
  env_with (fun inst h => inst.emit_event h event) st host

/-- One boundary operation of the environment instance, with its arguments.
Enumerates the full public operation set of `EnvInstance` (`shared_mut.rs`).
Storage/runtime reads are taken at raw bytes (identity decode); eval likewise:
the flags never depend on the decode outcome. -/
inductive Op where
  | get_property (prop : Property)
  | set_rent_allowance (new_value : Bytes)
  | set_contract_storage (key value : Bytes)
  | get_contract_storage (key : Bytes)
  | clear_contract_storage (key : Bytes)
  | invoke_contract (call_data : CallParams)
  | eval_contract (call_data : CallParams)
  | create_contract (params : CreateParams)
  | input
  | output (return_value : Bytes)
  | random (subject : Bytes)
  | println (content : String)
  | get_runtime_storage (key : Bytes)
  | emit_event (event : Bytes)
  deriving DecidableEq, Repr

/-- Runs one boundary operation on the instance/host pair, discarding the
operation's return value: `none` is a fatal assertion failure. -/
def step (op : Op) (st : EnvInstance) (host : Host) : Option (EnvInstance × Host) :=
  match op with
  | Op.get_property prop => (st.get_property host prop).map Prod.snd
  | Op.set_rent_allowance v => (st.set_rent_allowance host v).map Prod.snd
  | Op.set_contract_storage k v => (st.set_contract_storage host k v).map Prod.snd
  | Op.get_contract_storage k =>
      (EnvInstance.get_contract_storage some st host k).map Prod.snd
  | Op.clear_contract_storage k => (st.clear_contract_storage host k).map Prod.snd
  | Op.invoke_contract c => (st.invoke_contract host c).map Prod.snd
  | Op.eval_contract c => (EnvInstance.eval_contract some st host c).map Prod.snd
  | Op.create_contract p => (st.create_contract host p).map Prod.snd
  | Op.input => (st.input host).map Prod.snd
  | Op.output v => (st.output host v).map Prod.snd
  | Op.random s => (st.random host s).map Prod.snd
  | Op.println c => (st.println host c).map Prod.snd
  | Op.get_runtime_storage k =>
      (EnvInstance.get_runtime_storage some st host k).map Prod.snd
  | Op.emit_event e => (st.emit_event host e).map Prod.snd

/-- A concrete simulated host used to exercise the model on closed inputs:
empty storage, all-empty property bytes, nested calls succeed with empty
results. -/
def host0 : Host :=
  { property_bytes := fun _ => []
    storage := fun _ => none
    runtime_storage := fun _ => none
    invoke_result := fun _ => Except.ok ()
    eval_result := fun _ => Except.ok []
    create_result := fun _ => Except.ok []
    random_hash := fun _ => []
    outputs := []
    events := []
    printed := [] }

/-- A concrete simulated host whose nested-call verdict is "gas exhausted"
whenever the call descriptor carries a zero gas limit. -/
def hostGas : Host :=
  { host0 with
    eval_result := fun c =>
      if c.gas_limit = 0 then Except.error EnvError.gasExhausted
      else Except.ok []
    invoke_result := fun c =>
      if c.gas_limit = 0 then Except.error EnvError.gasExhausted
      else Except.ok ()
    create_result := fun p =>
      if p.gas_limit = 0 then Except.error EnvError.gasExhausted
      else Except.ok [] }

/-- The instance state right after a successful `output` from the initial
state: both flags latched true. -/
def stReturned : EnvInstance :=
  { buffer := [1, 2], has_interacted := true, has_returned_value := true }

/-- Runs a sequence of boundary operations, stopping fatally (`none`) at the
first assertion failure. -/
def runOps : List Op → EnvInstance → Host → Option (EnvInstance × Host)
  | [], st, host => some (st, host)
  | op :: ops, st, host =>
    match step op st host with
    | none => none
    | some (st2, h2) => runOps ops st2 h2

/-- Helper: a single successful boundary operation never resets either flag
from `true` to `false`. -/
theorem step_flags_mono (op : Op) (st : EnvInstance) (host : Host)
    (st2 : EnvInstance × Host) (h : step op st host = some st2) :
    (st.has_interacted = true → st2.1.has_interacted = true) ∧
    (st.has_returned_value = true → st2.1.has_returned_value = true) := by
  cases hr : st.has_returned_value <;> cases hi : st.has_interacted <;>
    cases op <;>
    simp_all [step, EnvInstance.get_property, EnvInstance.set_rent_allowance,
      EnvInstance.set_contract_storage, EnvInstance.get_contract_storage,
      EnvInstance.clear_contract_storage, EnvInstance.invoke_contract,
      EnvInstance.eval_contract, EnvInstance.create_contract,
      EnvInstance.input, EnvInstance.output, EnvInstance.random,
      EnvInstance.println, EnvInstance.get_runtime_storage,
      EnvInstance.emit_event, EnvInstance.assert_not_yet_returned,
      EnvInstance.set_has_interacted] <;>
    (try subst h) <;> simp_all

/-- Helper: a successful run of any operation sequence never resets either
flag from `true` to `false`. -/
theorem runOps_flags_mono (ops : List Op) (st : EnvInstance) (host : Host)
    (st2 : EnvInstance × Host) (h : runOps ops st host = some st2) :
    (st.has_interacted = true → st2.1.has_interacted = true) ∧
    (st.has_returned_value = true → st2.1.has_returned_value = true) := by
  induction ops generalizing st host with
  | nil =>
    simp [runOps] at h
    subst h
    simp
  | cons op ops ih =>
    simp only [runOps] at h
    cases hs : step op st host with
    | none =>
      rw [hs] at h
      cases h
    | some st3 =>
      obtain ⟨st3a, st3b⟩ := st3
      rw [hs] at h
      have hmono := step_flags_mono op st host (st3a, st3b) hs
      have hrest := ih st3a st3b h
      exact ⟨fun hint => hrest.1 (hmono.1 hint), fun hret => hrest.2 (hmono.2 hret)⟩

/-- C4: the two flags are monotone latches.  The initial singleton state has
an empty buffer and both flags false, and no boundary operation of the
environment instance — single step or any successful sequence — ever resets
`has_interacted` or `has_returned_value` from `true` back to `false`. -/
theorem C4_flags_are_latches :
    ENV_INSTANCE.buffer = [] ∧
    ENV_INSTANCE.has_interacted = false ∧
    ENV_INSTANCE.has_returned_value = false ∧
    (∀ op st host st2, step op st host = some st2 →
      (st.has_interacted = true → st2.1.has_interacted = true) ∧
      (st.has_returned_value = true → st2.1.has_returned_value = true)) ∧
    (∀ ops st host st2, runOps ops st host = some st2 →
      (st.has_interacted = true → st2.1.has_interacted = true) ∧
      (st.has_returned_value = true → st2.1.has_returned_value = true)) := by
  exact ⟨rfl, rfl, rfl,
    fun op st host st2 h => step_flags_mono op st host st2 h,
    fun ops st host st2 h => runOps_flags_mono ops st host st2 h⟩

/-- The instance/host pair after running `emit_event [5]` from `stReturned`. -/
def stEmit : EnvInstance × Host :=
  ({ buffer := [5], has_interacted := true, has_returned_value := true },
   { host0 with events := [[5]] })

/-- Witness for C4 at a concrete input: one `emit_event` step from the
post-output state keeps both flags latched true. -/
theorem C4_flags_are_latches_witness :
    step (Op.emit_event [5]) stReturned host0 = some stEmit ∧
    stEmit.1.has_interacted = true ∧ stEmit.1.has_returned_value = true := by
  exact ⟨rfl,
    (C4_flags_are_latches.2.2.2.1 (Op.emit_event [5]) stReturned host0 stEmit rfl).1 rfl,
    (C4_flags_are_latches.2.2.2.1 (Op.emit_event [5]) stReturned host0 stEmit rfl).2 rfl⟩

/-- The host observed after the first successful `output [1, 2]` from the
initial state. -/
def hostOut : Host := { host0 with outputs := [[1, 2]] }

/-- C1 counterexample: the claim says that once `write_output` has succeeded,
every boundary operation — including `set_storage` and `invoke` — fails
fatally.  In the code `set_contract_storage` and `invoke_contract` perform no
`has_returned_value` assertion: after a successful `output` from the initial
state they succeed rather than failing fatally. -/
theorem C1_counterexample :
    EnvInstance.output ENV_INSTANCE host0 [1, 2] = some ((), stReturned, hostOut) ∧
    (EnvInstance.set_contract_storage stReturned hostOut [3] [4]).isSome = true ∧
    (EnvInstance.invoke_contract stReturned hostOut
      { callee := [7], gas_limit := 5, transferred_value := 0, call_data := [9] }).isSome
      = true := by
  exact ⟨rfl, rfl, rfl⟩

/-- C1 (amended): once `write_output` has succeeded, every subsequent
flag-checked boundary operation — `get_property` (all ten getters),
`set_rent_allowance`, `read_input`, `random`, and a second `write_output` —
fails fatally, after any number of further successful operations; the
storage operations, `invoke`, `evaluate`, `instantiate`, `emit_event` and the
runtime-storage read perform no `has_returned_value` assertion and do not
fail. -/
theorem C1_after_output (v : Bytes) (st : EnvInstance) (host : Host)
    (out : Unit × EnvInstance × Host) (hout : EnvInstance.output st host v = some out)
    (ops : List Op) (st2 : EnvInstance × Host)
    (hrun : runOps ops out.2.1 out.2.2 = some st2) :
    (∀ prop, step (Op.get_property prop) st2.1 st2.2 = none) ∧
    (∀ w, step (Op.set_rent_allowance w) st2.1 st2.2 = none) ∧
    step Op.input st2.1 st2.2 = none ∧
    (∀ w, step (Op.output w) st2.1 st2.2 = none) ∧
    (∀ s, step (Op.random s) st2.1 st2.2 = none) ∧
    (∀ k w, (step (Op.set_contract_storage k w) st2.1 st2.2).isSome = true) ∧
    (∀ k, (step (Op.get_contract_storage k) st2.1 st2.2).isSome = true) ∧
    (∀ k, (step (Op.clear_contract_storage k) st2.1 st2.2).isSome = true) ∧
    (∀ c, (step (Op.invoke_contract c) st2.1 st2.2).isSome = true) ∧
    (∀ c, (step (Op.eval_contract c) st2.1 st2.2).isSome = true) ∧
    (∀ p, (step (Op.create_contract p) st2.1 st2.2).isSome = true) ∧
    (∀ e, (step (Op.emit_event e) st2.1 st2.2).isSome = true) ∧
    (∀ k, (step (Op.get_runtime_storage k) st2.1 st2.2).isSome = true) := by
  have h1 : out.2.1.has_returned_value = true := by
    cases hr : st.has_returned_value
    · simp [EnvInstance.output, EnvInstance.assert_not_yet_returned, hr,
        EnvInstance.set_has_interacted] at hout
      rw [← hout]
    · simp [EnvInstance.output, EnvInstance.assert_not_yet_returned, hr] at hout
  have h2 : st2.1.has_returned_value = true := (runOps_flags_mono ops _ _ st2 hrun).2 h1
  refine ⟨?_, ?_, ?_, ?_, ?_, ?_, ?_, ?_, ?_, ?_, ?_, ?_, ?_⟩ <;>
    intros <;>
    simp [step, EnvInstance.get_property, EnvInstance.set_rent_allowance,
      EnvInstance.set_contract_storage, EnvInstance.get_contract_storage,
      EnvInstance.clear_contract_storage, EnvInstance.invoke_contract,
      EnvInstance.eval_contract, EnvInstance.create_contract,
      EnvInstance.input, EnvInstance.output, EnvInstance.random,
      EnvInstance.get_runtime_storage, EnvInstance.emit_event,
      EnvInstance.assert_not_yet_returned, h2]

/-- Witness for C1 (amended) at a concrete input: after `output [1, 2]` from
the initial state, `caller` fails fatally while `set_contract_storage`
succeeds. -/
theorem C1_after_output_witness :
    step (Op.get_property Property.Caller) stReturned hostOut = none ∧
    (step (Op.set_contract_storage [3] [4]) stReturned hostOut).isSome = true := by
  have h := C1_after_output [1, 2] ENV_INSTANCE host0 ((), stReturned, hostOut) rfl
    [] (stReturned, hostOut) rfl
  exact ⟨h.1 Property.Caller, h.2.2.2.2.2.1 [3] [4]⟩

/-- Helper: `input` fails fatally whenever `has_interacted` is already
true. -/
theorem input_none_of_interacted (st : EnvInstance) (host : Host)
    (h : st.has_interacted = true) : EnvInstance.input st host = none := by
  simp [EnvInstance.input, h]

/-- C2: `input` succeeds only while `has_interacted` is still false at the
moment of the call; a second call after a first successful one, or a call
after any prior flag-latching interaction (`get_property`,
`set_rent_allowance`, `random`, `output`), fails fatally. -/
theorem C2_input_requires_no_interaction (st : EnvInstance) (host : Host) :
    ((EnvInstance.input st host).isSome = true → st.has_interacted = false) ∧
    (st.has_interacted = true → EnvInstance.input st host = none) ∧
    (∀ out, EnvInstance.input st host = some out →
      EnvInstance.input out.2.1 out.2.2 = none) ∧
    (∀ prop out, EnvInstance.get_property st host prop = some out →
      EnvInstance.input out.2.1 out.2.2 = none) ∧
    (∀ v out, EnvInstance.set_rent_allowance st host v = some out →
      EnvInstance.input out.2.1 out.2.2 = none) ∧
    (∀ s out, EnvInstance.random st host s = some out →
      EnvInstance.input out.2.1 out.2.2 = none) ∧
    (∀ v out, EnvInstance.output st host v = some out →
      EnvInstance.input out.2.1 out.2.2 = none) := by
  refine ⟨?_, ?_, ?_, ?_, ?_, ?_, ?_⟩
  · intro hs
    cases hi : st.has_interacted
    · rfl
    · rw [input_none_of_interacted st host hi] at hs
      simp at hs
  · exact fun hi => input_none_of_interacted st host hi
  · intro out hout
    apply input_none_of_interacted
    cases hr : st.has_returned_value <;> cases hi : st.has_interacted <;>
      simp [EnvInstance.input, EnvInstance.assert_not_yet_returned,
        EnvInstance.set_has_interacted, hr, hi] at hout <;>
      simp [← hout]
  · intro prop out hout
    apply input_none_of_interacted
    cases hr : st.has_returned_value <;>
      simp [EnvInstance.get_property, EnvInstance.assert_not_yet_returned,
        EnvInstance.set_has_interacted, hr] at hout <;>
      simp [← hout]
  · intro v out hout
    apply input_none_of_interacted
    cases hr : st.has_returned_value <;>
      simp [EnvInstance.set_rent_allowance, EnvInstance.assert_not_yet_returned,
        EnvInstance.set_has_interacted, hr] at hout <;>
      simp [← hout]
  · intro s out hout
    apply input_none_of_interacted
    cases hr : st.has_returned_value <;>
      simp [EnvInstance.random, EnvInstance.assert_not_yet_returned,
        EnvInstance.set_has_interacted, hr] at hout <;>
      simp [← hout]
  · intro v out hout
    apply input_none_of_interacted
    cases hr : st.has_returned_value <;>
      simp [EnvInstance.output, EnvInstance.assert_not_yet_returned,
        EnvInstance.set_has_interacted, hr] at hout <;>
      simp [← hout]

/-- The instance state in which `input` has been consumed but no value
returned yet. -/
def stInteracted : EnvInstance :=
  { buffer := [], has_interacted := true, has_returned_value := false }

/-- Witness for C2 at a concrete input: from the fresh state `input` succeeds,
and a second `input` on the resulting state fails fatally. -/
theorem C2_input_requires_no_interaction_witness :
    EnvInstance.input ENV_INSTANCE host0 = some ([], stInteracted, host0) ∧
    EnvInstance.input stInteracted host0 = none := by
  exact ⟨rfl,
    (C2_input_requires_no_interaction ENV_INSTANCE host0).2.2.1
      ([], stInteracted, host0) rfl⟩

/-- C3: `output` asserts `has_returned_value` is false, then latches
`has_returned_value` and `has_interacted` to true while handing the encoded
payload to the Environment Capability; a second call fails fatally (so only
the first payload is appended to the host's output log). -/
theorem C3_output_is_final (st : EnvInstance) (host : Host) (v : Bytes) :
    (st.has_returned_value = true → EnvInstance.output st host v = none) ∧
    (st.has_returned_value = false →
      EnvInstance.output st host v =
        some ((), { buffer := v, has_interacted := true, has_returned_value := true },
              { host with outputs := host.outputs ++ [v] }) ∧
      (∀ w host2, EnvInstance.output
          { buffer := v, has_interacted := true, has_returned_value := true }
          host2 w = none) ∧
      ({ host with outputs := host.outputs ++ [v] }).outputs = host.outputs ++ [v]) := by
  cases hr : st.has_returned_value <;>
    simp [EnvInstance.output, EnvInstance.assert_not_yet_returned,
      EnvInstance.set_has_interacted, hr]

/-- Witness for C3 at a concrete input: the first `output [1, 2]` from the
initial state succeeds and its payload is logged; a second `output [9]` on
the reached state fails fatally. -/
theorem C3_output_is_final_witness :
    EnvInstance.output ENV_INSTANCE host0 [1, 2] = some ((), stReturned, hostOut) ∧
    hostOut.outputs = [[1, 2]] ∧
    EnvInstance.output stReturned hostOut [9] = none := by
  have h := (C3_output_is_final ENV_INSTANCE host0 [1, 2]).2 rfl
  exact ⟨h.1, rfl, h.2.1 [9] hostOut⟩

/-- C5: `invoke_contract`, `eval_contract` and `create_contract` leave both
flags unchanged in every state, whether the host reports success or an error
such as gas exhaustion. -/
theorem C5_nested_calls_preserve_flags {R : Type} (dec : Bytes → Option R)
    (st : EnvInstance) (host : Host) (c : CallParams) (p : CreateParams) :
    (∀ out, EnvInstance.invoke_contract st host c = some out →
      out.2.1.has_interacted = st.has_interacted ∧
      out.2.1.has_returned_value = st.has_returned_value) ∧
    (∀ out, EnvInstance.eval_contract dec st host c = some out →
      out.2.1.has_interacted = st.has_interacted ∧
      out.2.1.has_returned_value = st.has_returned_value) ∧
    (∀ out, EnvInstance.create_contract st host p = some out →
      out.2.1.has_interacted = st.has_interacted ∧
      out.2.1.has_returned_value = st.has_returned_value) := by
  refine ⟨?_, ?_, ?_⟩ <;> intro out h <;>
    simp [EnvInstance.invoke_contract, EnvInstance.eval_contract,
      EnvInstance.create_contract] at h <;>
    simp [← h]

/-- The message-call descriptor of the gas-exhaustion scenario: zero gas
limit. -/
def cZero : CallParams :=
  { callee := [7], gas_limit := 0, transferred_value := 0, call_data := [3] }

/-- An arbitrary concrete instantiation descriptor. -/
def p0 : CreateParams :=
  { code_hash := [1], gas_limit := 10, value := 0, create_data := [2] }

/-- The result of evaluating `cZero` against the gas-metering host from the
fresh state. -/
def evalGasOut : Except EnvError Bytes × EnvInstance × Host :=
  (Except.error EnvError.gasExhausted,
   { buffer := [3], has_interacted := false, has_returned_value := false },
   hostGas)

/-- Witness for C5 at a concrete input: evaluating a zero-gas call against a
host that reports gas exhaustion yields the gas-exhausted error variant and
leaves both flags unchanged. -/
theorem C5_nested_calls_preserve_flags_witness :
    EnvInstance.eval_contract some ENV_INSTANCE hostGas cZero = some evalGasOut ∧
    evalGasOut.1 = Except.error EnvError.gasExhausted ∧
    evalGasOut.2.1.has_interacted = ENV_INSTANCE.has_interacted ∧
    evalGasOut.2.1.has_returned_value = ENV_INSTANCE.has_returned_value := by
  have h := (C5_nested_calls_preserve_flags some ENV_INSTANCE hostGas cZero p0).2.1
    evalGasOut rfl
  exact ⟨rfl, rfl, h.1, h.2⟩

/-- C6: `get_contract_storage` returns an explicit result value in every
state: a "not found" error when the key is absent, a "decode error" — a
distinct variant — when the stored bytes do not decode to the requested
type, and the decoded value otherwise; it never fails fatally. -/
theorem C6_get_storage_error_taxonomy {R : Type} (dec : Bytes → Option R)
    (st : EnvInstance) (host : Host) (key : Bytes) :
    (host.storage key = none →
      EnvInstance.get_contract_storage dec st host key =
        some (Except.error EnvError.keyNotFound, { st with buffer := [] }, host)) ∧
    (∀ raw, host.storage key = some raw → dec raw = none →
      EnvInstance.get_contract_storage dec st host key =
        some (Except.error EnvError.decodeError, { st with buffer := raw }, host)) ∧
    (∀ raw v, host.storage key = some raw → dec raw = some v →
      EnvInstance.get_contract_storage dec st host key =
        some (Except.ok v, { st with buffer := raw }, host)) ∧
    EnvError.keyNotFound ≠ EnvError.decodeError := by
  refine ⟨?_, ?_, ?_, by simp⟩
  · intro h
    simp [EnvInstance.get_contract_storage, Env.get_contract_storage, h]
  · intro raw h hdec
    simp [EnvInstance.get_contract_storage, Env.get_contract_storage, h, hdec]
  · intro raw v h hdec
    simp [EnvInstance.get_contract_storage, Env.get_contract_storage, h, hdec]

/-- A host holding exactly one storage entry, `[5] ↦ [9]`. -/
def hostStore : Host :=
  { host0 with storage := fun k => if k = [5] then some [9] else none }

/-- Witness for C6 at concrete inputs: an absent key yields the not-found
error, while a present key whose bytes the decoder rejects yields the
decode error. -/
theorem C6_get_storage_error_taxonomy_witness :
    EnvInstance.get_contract_storage (fun _ => (none : Option Nat))
        ENV_INSTANCE hostStore [0] =
      some (Except.error EnvError.keyNotFound, ENV_INSTANCE, hostStore) ∧
    EnvInstance.get_contract_storage (fun _ => (none : Option Nat))
        ENV_INSTANCE hostStore [5] =
      some (Except.error EnvError.decodeError,
            { ENV_INSTANCE with buffer := [9] }, hostStore) := by
  exact ⟨(C6_get_storage_error_taxonomy (fun _ => (none : Option Nat))
            ENV_INSTANCE hostStore [0]).1 rfl,
         (C6_get_storage_error_taxonomy (fun _ => (none : Option Nat))
            ENV_INSTANCE hostStore [5]).2.1 [9] rfl rfl⟩

/-- C7: every property getter (the ten `impl_get_property_for!` instances,
anchored below to `get_property` at their tags) and `set_rent_allowance`
first assert `has_returned_value` is false — failing fatally otherwise —
and then latch `has_interacted` to true before delegating to the capability
with the scratch buffer. -/
theorem C7_property_access_latches (st : EnvInstance) (host : Host)
    (prop : Property) (v : Bytes) :
    (st.has_returned_value = true →
      EnvInstance.get_property st host prop = none ∧
      EnvInstance.set_rent_allowance st host v = none) ∧
    (st.has_returned_value = false →
      EnvInstance.get_property st host prop =
        some (host.property_bytes prop,
          { buffer := host.property_bytes prop, has_interacted := true,
            has_returned_value := false }, host) ∧
      EnvInstance.set_rent_allowance st host v =
        some ((), { buffer := v, has_interacted := true, has_returned_value := false },
          { host with property_bytes := fun p =>
              if p = Property.RentAllowance then v else host.property_bytes p })) ∧
    EnvInstance.caller st host = EnvInstance.get_property st host Property.Caller ∧
    EnvInstance.transferred_balance st host =
      EnvInstance.get_property st host Property.TransferredBalance ∧
    EnvInstance.gas_price st host = EnvInstance.get_property st host Property.GasPrice ∧
    EnvInstance.gas_left st host = EnvInstance.get_property st host Property.GasLeft ∧
    EnvInstance.now_in_ms st host = EnvInstance.get_property st host Property.NowInMs ∧
    EnvInstance.address st host = EnvInstance.get_property st host Property.Address ∧
    EnvInstance.balance st host = EnvInstance.get_property st host Property.Balance ∧
    EnvInstance.rent_allowance st host =
      EnvInstance.get_property st host Property.RentAllowance ∧
    EnvInstance.block_number st host =
      EnvInstance.get_property st host Property.BlockNumber ∧
    EnvInstance.minimum_balance st host =
      EnvInstance.get_property st host Property.MinimumBalance := by
  refine ⟨?_, ?_, rfl, rfl, rfl, rfl, rfl, rfl, rfl, rfl, rfl, rfl⟩
  · intro hr
    exact ⟨by simp [EnvInstance.get_property, EnvInstance.assert_not_yet_returned, hr],
           by simp [EnvInstance.set_rent_allowance,
             EnvInstance.assert_not_yet_returned, hr]⟩
  · intro hr
    constructor
    · simp [EnvInstance.get_property, EnvInstance.assert_not_yet_returned,
        EnvInstance.set_has_interacted, hr]
    · simp [EnvInstance.set_rent_allowance, EnvInstance.assert_not_yet_returned,
        EnvInstance.set_has_interacted, hr]

/-- Witness for C7 at concrete inputs: reading `Balance` from the fresh state
succeeds with `has_interacted` latched, and `set_rent_allowance` after a
returned value fails fatally. -/
theorem C7_property_access_latches_witness :
    EnvInstance.get_property ENV_INSTANCE host0 Property.Balance =
      some ([], { buffer := [], has_interacted := true, has_returned_value := false },
        host0) ∧
    EnvInstance.set_rent_allowance stReturned host0 [4] = none := by
  exact ⟨((C7_property_access_latches ENV_INSTANCE host0 Property.Balance [4]).2.1 rfl).1,
         ((C7_property_access_latches stReturned host0 Property.Balance [4]).1 rfl).2⟩

/-- C8: for every operation, every handle value and every instance/host
state, the free-function form (`api` module) and the method form on the
`EnvAccessMut` handle coincide: both are `env_with` of the same instance
method. -/
theorem C8_api_matches_handle {R : Type} (dec : Bytes → Option R)
    (a : EnvAccessMut) (st : EnvInstance) (host : Host) (prop : Property)
    (v key value subject event : Bytes) (c : CallParams) (p : CreateParams)
    (content : String) :
    api.get_property st host prop = EnvAccessMut.get_property a st host prop ∧
    api.set_rent_allowance st host v = EnvAccessMut.set_rent_allowance a st host v ∧
    api.set_contract_storage st host key value =
      EnvAccessMut.set_contract_storage a st host key value ∧
    api.get_contract_storage dec st host key =
      EnvAccessMut.get_contract_storage dec a st host key ∧
    api.clear_contract_storage st host key =
      EnvAccessMut.clear_contract_storage a st host key ∧
    api.invoke_contract st host c = EnvAccessMut.invoke_contract a st host c ∧
    api.eval_contract dec st host c = EnvAccessMut.eval_contract dec a st host c ∧
    api.create_contract st host p = EnvAccessMut.create_contract a st host p ∧
    api.input st host = EnvAccessMut.input a st host ∧
    api.output st host v = EnvAccessMut.output a st host v ∧
    api.random st host subject = EnvAccessMut.random a st host subject ∧
    api.println st host content = EnvAccessMut.println a st host content ∧
    api.get_runtime_storage dec st host key =
      EnvAccessMut.get_runtime_storage dec a st host key ∧
    api.emit_event st host event = EnvAccessMut.emit_event a st host event := by
  exact ⟨rfl, rfl, rfl, rfl, rfl, rfl, rfl, rfl, rfl, rfl, rfl, rfl, rfl, rfl⟩

/-- C9: `println` has no precondition and touches neither the flags nor the
scratch buffer: in every instance state — in particular after `output` has
been set — it succeeds and returns the instance unchanged, only appending
the line to the host log. -/
theorem C9_println_unrestricted (st : EnvInstance) (host : Host) (content : String) :
    EnvInstance.println st host content =
      some ((), st, { host with printed := host.printed ++ [content] }) := rfl

/-- C10: the `EnvAccessMut` handle carries no runtime state: any two handle
values are equal, `allocate_using` yields `default`, and `initialize` is the
identity — every handle aliases the one process-wide instance. -/
theorem C10_handle_is_stateless (x y : EnvAccessMut) (A : Type) (alloc : A) :
    x = y ∧
    EnvAccessMut.allocate_using alloc = EnvAccessMut.default ∧
    EnvAccessMut.initialize x () = x := by
  obtain ⟨⟨⟩⟩ := x
  obtain ⟨⟨⟩⟩ := y
  exact ⟨rfl, rfl, rfl⟩
